import Mathlib

/-
Shallow embedding of the AIOps agent in `agent/agent.py`.

Modelling conventions:
- Python floats are modelled as rationals (ℚ).
- Environment variables are `Option String`; Python truthiness of such a
  value (`if not X`) is modelled by `pyTruthy` (None and "" are falsy).
- Each external effect (HTTP query, Slack POST, Kubernetes patch, GitHub
  API call) is modelled by an oracle value describing the outcome the
  outside world would produce, and the functions return explicit traces
  of the calls they perform.  A Python exception raised by an external
  call appears as an `Except.error` in the oracle.
- One iteration of `main_loop`'s `while True:` body is embedded as
  `main_loop_iteration`, returning the list of observable events of that
  iteration (log entries, Slack call, remediation invocations, sleep).
-/

set_option autoImplicit false
set_option maxRecDepth 100000

namespace Agent

/-- Python truthiness of an optional environment string: `None` and the
empty string are falsy, every other string is truthy.  Embeds the
`if not X` guards of `agent.py`. -/
def pyTruthy (v : Option String) : Bool :=
  match v with
  | none => false
  | some s => !(s == "")

/-- Embedding of Python's `str.lower()`: lowercase every character. -/
def pyLower (s : String) : String :=
  String.mk (s.data.map Char.toLower)

/-- Parsing of the DRY_RUN flag, from
`os.getenv("DRY_RUN", "true").lower() == "true"` (agent.py line 26). -/
def dryRunFlag (v : Option String) : Bool :=
  pyLower (v.getD "true") == "true"

/-- Parsing of the AUTO_APPLY flag, from
`os.getenv("AUTO_APPLY", "false").lower() == "true"` (agent.py line 27). -/
def autoApplyFlag (v : Option String) : Bool :=
  pyLower (v.getD "false") == "true"

/-- One entry of the `data.result` array returned by the metric query.
`value` is the outcome of `float(r["value"][1])`: `some q` when the float
parse succeeds with value `q`, `none` when it raises. -/
structure PromResult where
  pod : String
  value : Option ℚ
  deriving DecidableEq

/-- Embedding of `query_prometheus` (agent.py lines 46-52).  `net` is the
oracle for the HTTP GET: an `Except.error` covers a network error, a
non-2xx status raised by `raise_for_status`, or malformed JSON; an
`Except.ok` carries the parsed `data.result` array.  When the metric
source address is not configured (falsy), the function raises
`RuntimeError("PROMETHEUS_URL not configured")` instead of querying. -/
def query_prometheus (promUrl : Option String) (net : Except String (List PromResult)) :
    Except String (List PromResult) :=
  if pyTruthy promUrl then net
  else Except.error "PROMETHEUS_URL not configured"

/-- Embedding of the `for r in results: values.append(float(r["value"][1]))`
loop of the sampler (agent.py lines 62-65): collects the parsed values in
order, aborting with `none` at the first failing parse (the raised
exception). -/
def parseValues : List PromResult → Option (List ℚ)
  | [] => some []
  | r :: rest =>
    match r.value, parseValues rest with
    | some v, some vs => some (v :: vs)
    | _, _ => none

/-- Embedding of `get_average_cpu_for_deployment` (agent.py lines 54-70).
All exceptions from the query (including the configuration error and a
failing `float(...)` parse) are caught and turned into `(0, [])`; with
data present the average is the exact arithmetic mean. -/
def get_average_cpu_for_deployment (promUrl : Option String)
    (net : Except String (List PromResult)) : ℚ × List PromResult :=
  match query_prometheus promUrl net with
  | Except.error _ => (0, [])
  | Except.ok results =>
    match parseValues results with
    | none => (0, [])
    | some values =>
      ((if values.isEmpty then 0 else values.sum / (values.length : ℚ)), results)

/-- Outcome of the Slack POST as seen by `post_slack`: either a response
with a status code and a body text, or an exception raised by
`requests.post`. -/
inductive SlackOutcome where
  | response (status : ℕ) (body : String)
  | netError (e : String)
  deriving DecidableEq

/-- Observable events of `post_slack`: lines printed to the process log
and HTTP POST requests issued. -/
inductive SlackEvent where
  | printLine (msg : String)
  | httpPost (url : String) (text : String)
  deriving DecidableEq

/-- Predicate selecting the HTTP POST events of a `post_slack` trace. -/
def isHttpPostEvent : SlackEvent → Bool
  | SlackEvent.httpPost _ _ => true
  | _ => false

/-- Predicate selecting the log-line events of a `post_slack` trace. -/
def isPrintEvent : SlackEvent → Bool
  | SlackEvent.printLine _ => true
  | _ => false

/-- Embedding of `post_slack` (agent.py lines 34-44).  Returns the trace
of events; the function is total, so no failure propagates to the
caller, and the trace contains at most one `httpPost` (no retry). -/
def post_slack (webhook : Option String) (o : SlackOutcome) (text : String) :
    List SlackEvent :=
  if pyTruthy webhook then
    SlackEvent.httpPost (webhook.getD "") text ::
    (match o with
     | SlackOutcome.response status body =>
       if 300 ≤ status then
         [SlackEvent.printLine ("Slack post failed: " ++ toString status ++ " " ++ body)]
       else []
     | SlackOutcome.netError e =>
       [SlackEvent.printLine ("Slack post exception: " ++ e)])
  else
    [SlackEvent.printLine ("Slack webhook not configured. Message: " ++ text)]

/-- Occurrence of `pat` as a contiguous substring of `s`; embeds the
Python expression `pat in s`. -/
def occursIn (pat s : String) : Prop :=
  pat.data <:+: s.data

instance (pat s : String) : Decidable (occursIn pat s) :=
  inferInstanceAs (Decidable (pat.data <:+: s.data))

/-- Number of lines of a string, as Python's `splitlines`-style count for
newline-separated text: one more than the number of newline characters. -/
def lineCount (s : String) : ℕ :=
  s.data.count '\n' + 1

/-- Text of the first line of a string: the characters before the first
newline. -/
def firstLine (s : String) : String :=
  String.mk (s.data.takeWhile (fun c => !(c == '\n')))

/-- Embedding of `simple_llm_reasoning` (agent.py lines 72-87): a
deterministic, stateless keyword lookup on the lowercased issue text. -/
def simple_llm_reasoning (issueText : String) : String :=
  let lowered := pyLower issueText
  let plan : List String :=
    if occursIn "high cpu" lowered ∨ occursIn "cpu" lowered then
      ["Scale up replica count (increase replicas by 1 or 2)",
       "Restart pods of the deployment",
       "Check for hot loops / heavy GC in app logs",
       "If persists, create PR to bump resource limits or add HPA"]
    else
      ["Investigate further, check logs and recent deployments"]
  String.intercalate "\n" plan

/-- Embedding of the breach test `avg_cpu > CPU_THRESHOLD` of the loop
body (agent.py line 161): strictly greater than. -/
def breachDecision (avgCpu threshold : ℚ) : Bool :=
  decide (avgCpu > threshold)

/-- Replacement of every leftmost non-overlapping occurrence of `pat` by
`repl`, the semantics of Python's `str.replace`, written with an explicit
fuel argument (the recursion consumes at least one character per step, so
fuel `l.length` suffices). -/
def replaceAllAux (pat repl : List Char) : ℕ → List Char → List Char
  | _, [] => []
  | 0, l => l
  | fuel + 1, c :: rest =>
    if pat ≠ [] ∧ pat <+: (c :: rest) then
      repl ++ replaceAllAux pat repl fuel ((c :: rest).drop pat.length)
    else
      c :: replaceAllAux pat repl fuel rest

/-- Replacement of every occurrence of `pat` in `l` by `repl`. -/
def replaceAllList (pat repl l : List Char) : List Char :=
  replaceAllAux pat repl l.length l

/-- String form of `replaceAllList`; embeds `s.replace(pat, repl)`. -/
def replaceAll (s pat repl : String) : String :=
  String.mk (replaceAllList pat.data repl.data s.data)

/-- Fixed placeholder searched for in the Helm values file,
`tag: "latest"` (agent.py line 137). -/
def placeholderTag : String := "tag: \"latest\""

/-- Replacement text written for a new tag, `tag: "<new_tag>"`
(agent.py line 137). -/
def tagLine (newTag : String) : String := "tag: \"" ++ newTag ++ "\""

/-- Comment appended when the placeholder substitution matches nothing
(agent.py line 140). -/
def agentComment (newTag : String) : String :=
  "\n# agent update: tag " ++ newTag ++ "\n"

/-- Embedding of the pure file-update step of `create_github_pr_update_helm`
(agent.py lines 135-140): replace the placeholder tag everywhere, and if
that changes nothing, append the fallback comment line instead. -/
def updateHelmContent (original newTag : String) : String :=
  let newContent := replaceAll original placeholderTag (tagLine newTag)
  if newContent = original then original ++ agentComment newTag
  else newContent

instance exceptDecEq {ε α : Type} [DecidableEq ε] [DecidableEq α] :
    DecidableEq (Except ε α) := fun a b =>
  match a, b with
  | Except.error e, Except.error f => decidable_of_iff (e = f) (by simp)
  | Except.ok x, Except.ok y => decidable_of_iff (x = y) (by simp)
  | Except.error _, Except.ok _ => isFalse (fun hc => Except.noConfusion hc)
  | Except.ok _, Except.error _ => isFalse (fun hc => Except.noConfusion hc)

/-- Sub-steps of the ProposeChange action, in the order the code attempts
them.  `updateFile` records the content committed. -/
inductive GhStep where
  | createBranch
  | readFile
  | updateFile (content : String)
  | createPull
  deriving DecidableEq

/-- Oracle for the GitHub API calls of `create_github_pr_update_helm`:
the outcome each call would have if attempted.  `getRepo` is the
unguarded `g.get_repo(GITHUB_REPO)` (agent.py line 122) and `getBranch`
the unguarded `repo.get_branch("main")` (line 123, success carries
`base.commit.sha`); the `Github(GITHUB_TOKEN)` constructor performs no
API request and is not a failure point.  `readFile` is the guarded
`repo.get_contents` call (line 132) and `decode` the unguarded
`contents.decoded_content.decode()` (line 135, success carries the
decoded content).  `createPull` carries the PR html url on success. -/
structure GithubOracle where
  getRepo : Except String Unit
  getBranch : Except String String
  createBranch : Except String Unit
  readFile : Except String Unit
  decode : Except String String
  updateFile : Except String Unit
  createPull : Except String String
  deriving DecidableEq

/-- Embedding of `create_github_pr_update_helm` (agent.py lines 118-151).
An `Except.ok` result is the `(ok, message)` pair the function returns,
together with the list of guarded sub-steps actually attempted: the
first failing guarded sub-step is reported and the rest are not
attempted, and no compensating (rollback) step exists.  The repository
lookup, the default-branch lookup and the content decode are outside
every `try` block in the source, so their failures are `Except.error`:
the exception propagates uncaught out of the function. -/
def create_github_pr_update_helm (token repoName : Option String)
    (gh : GithubOracle) (newTag : String) :
    Except String ((Bool × String) × List GhStep) :=
  if pyTruthy token = false ∨ pyTruthy repoName = false then
    Except.ok ((false, "GitHub not configured"), [])
  else
    match gh.getRepo with
    | Except.error e => Except.error e
    | Except.ok _ =>
      match gh.getBranch with
      | Except.error e => Except.error e
      | Except.ok _sha =>
        match gh.createBranch with
        | Except.error e =>
          Except.ok ((false, "Failed create branch: " ++ e), [GhStep.createBranch])
        | Except.ok _ =>
          match gh.readFile with
          | Except.error e =>
            Except.ok ((false, "Failed read helm values: " ++ e),
              [GhStep.createBranch, GhStep.readFile])
          | Except.ok _ =>
            match gh.decode with
            | Except.error e => Except.error e
            | Except.ok original =>
              let newContent := updateHelmContent original newTag
              match gh.updateFile with
              | Except.error e =>
                Except.ok ((false, "Failed update file: " ++ e),
                  [GhStep.createBranch, GhStep.readFile, GhStep.updateFile newContent])
              | Except.ok _ =>
                match gh.createPull with
                | Except.error e =>
                  Except.ok ((false, "Failed create PR: " ++ e),
                    [GhStep.createBranch, GhStep.readFile, GhStep.updateFile newContent,
                     GhStep.createPull])
                | Except.ok url =>
                  Except.ok ((true, "PR created: " ++ url),
                    [GhStep.createBranch, GhStep.readFile, GhStep.updateFile newContent,
                     GhStep.createPull])

/-- Oracle for the Kubernetes calls of `restart_deployment_k8s`: outcomes
of loading the local kube config, loading the in-cluster config, and
patching the deployment. -/
structure K8sOracle where
  kubeConfigLoad : Except String Unit
  inclusterLoad : Except String Unit
  patch : Except String Unit
  deriving DecidableEq

/-- Embedding of `restart_deployment_k8s` (agent.py lines 89-116): load
kube config with in-cluster fallback, then patch the deployment; every
failure is returned as `(false, message)`, never raised. -/
def restart_deployment_k8s (o : K8sOracle) : Bool × String :=
  match o.kubeConfigLoad with
  | Except.ok _ =>
    (match o.patch with
     | Except.ok _ => (true, "patched")
     | Except.error e => (false, e))
  | Except.error _ =>
    match o.inclusterLoad with
    | Except.error e => (false, e)
    | Except.ok _ =>
      match o.patch with
      | Except.ok _ => (true, "patched")
      | Except.error e => (false, e)

/-- Configuration of the agent process, read once at startup from the
environment (agent.py lines 20-32). -/
structure AgentConfig where
  promUrl : Option String
  ns : String
  deploymentName : String
  slackWebhook : Option String
  githubToken : Option String
  githubRepo : Option String
  dryRun : Bool
  autoApply : Bool
  cpuThreshold : ℚ
  deriving DecidableEq

/-- Oracles for all external calls one loop iteration may perform. -/
structure LoopOracle where
  net : Except String (List PromResult)
  slack : SlackOutcome
  k8s : K8sOracle
  gh : GithubOracle
  deriving DecidableEq

/-- Observable events of one loop iteration: structured log entries,
the Slack notification call, the two remediation invocations, the sleep
that ends a completed iteration, and an uncaught exception escaping the
loop body (which terminates the process, so it is always the last event
of its trace). -/
inductive AgentEvent where
  | logAction (text : String)
  | postSlack (text : String)
  | restartDeployment (name ns : String)
  | createGithubPr (newTag : String)
  | sleep (seconds : ℚ)
  | uncaughtError (e : String)
  deriving DecidableEq

/-- Predicate selecting the Restart remediation invocations of a trace. -/
def isRestartEvent : AgentEvent → Bool
  | AgentEvent.restartDeployment _ _ => true
  | _ => false

/-- Predicate selecting the ProposeChange remediation invocations of a
trace. -/
def isProposeEvent : AgentEvent → Bool
  | AgentEvent.createGithubPr _ => true
  | _ => false

/-- Durations of the sleep events of a trace, in order. -/
def sleepEvents (tr : List AgentEvent) : List ℚ :=
  tr.filterMap (fun e =>
    match e with
    | AgentEvent.sleep d => some d
    | _ => none)

/-- Embedding of one iteration of the `while True:` body of `main_loop`
(agent.py lines 158-192).  `newTag` stands for the timestamp-derived tag
`datetime.utcnow().strftime("agent-%Y%m%d%H%M%S")`.  Informational
`print` calls are not modelled as events; `log_action` calls, the Slack
call, the remediation invocations and the sleep are.  When the
ProposeChange action raises through one of its unguarded GitHub calls,
nothing in `main_loop` catches the exception, so the iteration's trace
ends in `uncaughtError` and in particular the cooldown sleep at line 190
is never reached. -/
def main_loop_iteration (cfg : AgentConfig) (o : LoopOracle) (pollInterval : ℚ)
    (newTag : String) : List AgentEvent :=
  let sample := get_average_cpu_for_deployment cfg.promUrl o.net
  let avgCpu := sample.1
  if breachDecision avgCpu cfg.cpuThreshold then
    let issueText := "High CPU detected for " ++ cfg.deploymentName ++ " in " ++
      cfg.ns ++ ": avg_cpu=" ++ toString avgCpu
    let plan := simple_llm_reasoning issueText
    let head := [AgentEvent.logAction ("breach " ++ plan),
      AgentEvent.postSlack (":rotating_light: *Agentic AIOps:* " ++ issueText ++
        "\nPlan:\n" ++ plan)]
    if cfg.dryRun then
      head ++ [AgentEvent.sleep (pollInterval * 2)]
    else if cfg.autoApply then
      let res := restart_deployment_k8s o.k8s
      head ++ [AgentEvent.restartDeployment cfg.deploymentName cfg.ns,
        AgentEvent.logAction ("apply_result k8s_restart " ++ res.2),
        AgentEvent.sleep (pollInterval * 2)]
    else
      match create_github_pr_update_helm cfg.githubToken cfg.githubRepo o.gh newTag with
      | Except.error e =>
        head ++ [AgentEvent.createGithubPr newTag, AgentEvent.uncaughtError e]
      | Except.ok res =>
        head ++ [AgentEvent.createGithubPr newTag,
          AgentEvent.logAction ("apply_result pr " ++ res.1.2),
          AgentEvent.sleep (pollInterval * 2)]
  else
    [AgentEvent.sleep pollInterval]

/-- Concrete configuration used by witnesses: threshold 0.5, dry-run on,
auto-apply off, all integrations configured. -/
def cfgA : AgentConfig :=
  { promUrl := some "http://prom:9090"
    ns := "default"
    deploymentName := "myapp"
    slackWebhook := some "http://hooks.example/w"
    githubToken := some "tok"
    githubRepo := some "org/repo"
    dryRun := true
    autoApply := false
    cpuThreshold := 1/2 }

/-- Concrete oracle used by witnesses: one pod at 0.6 CPU (a breach
against threshold 0.5), all external calls succeeding. -/
def oracleA : LoopOracle :=
  { net := Except.ok [{ pod := "myapp-pod-1", value := some (3/5) }]
    slack := SlackOutcome.response 200 ""
    k8s := { kubeConfigLoad := Except.ok (), inclusterLoad := Except.ok (), patch := Except.ok () }
    gh := { getRepo := Except.ok (), getBranch := Except.ok "0a1b2c",
            createBranch := Except.ok (), readFile := Except.ok (),
            decode := Except.ok "tag: \"latest\"",
            updateFile := Except.ok (), createPull := Except.ok "http://github.example/pr/1" } }

/-- Concrete oracle used by witnesses: one pod at 0.4 CPU (no breach
against threshold 0.5). -/
def oracleLow : LoopOracle :=
  { oracleA with net := Except.ok [{ pod := "myapp-pod-1", value := some (2/5) }] }

/-- Concrete GitHub oracle whose unguarded repository lookup fails while
every guarded call would succeed. -/
def ghCrash : GithubOracle :=
  { getRepo := Except.error "boom", getBranch := Except.ok "0a1b2c",
    createBranch := Except.ok (), readFile := Except.ok (),
    decode := Except.ok "tag: \"latest\"",
    updateFile := Except.ok (), createPull := Except.ok "http://github.example/pr/1" }

/-- Concrete breach oracle whose ProposeChange action raises in the
unguarded repository lookup. -/
def oracleCrash : LoopOracle :=
  { oracleA with gh := ghCrash }

/-- Concrete configuration like `cfgA` but with dry-run off (and
auto-apply off), so a breach selects the ProposeChange action. -/
def cfgPropose : AgentConfig :=
  { cfgA with dryRun := false }

/-- Appending strings concatenates their character data. -/
theorem data_append (s t : String) : (s ++ t).data = s.data ++ t.data := rfl

/-- Leading part of an infix occurrence may be extended by one element. -/
theorem isInfix_cons_of_isInfix {α : Type} {p rest : List α} (c : α) (h : p <:+: rest) :
    p <:+: c :: rest := by
  obtain ⟨s, t, ht⟩ := h
  exact ⟨c :: s, t, by rw [← ht]; rfl⟩

/-- Every prefix occurrence is an infix occurrence. -/
theorem isInfix_of_pfx {α : Type} {p l : List α} (h : p <+: l) : p <:+: l := by
  obtain ⟨t, ht⟩ := h
  exact ⟨[], t, by simpa using ht⟩

/-- An infix of a cons cell that is not a prefix occurs in the tail. -/
theorem isInfix_tail_of_not_pfx {α : Type} {p : List α} {c : α} {rest : List α}
    (h : p <:+: c :: rest) (hnp : ¬ p <+: c :: rest) : p <:+: rest := by
  obtain ⟨s, t, ht⟩ := h
  cases s with
  | nil => exact absurd ⟨t, by simpa using ht⟩ hnp
  | cons a s' =>
    have ht' : a :: (s' ++ (p ++ t)) = c :: rest := by simpa using ht
    have h2 : s' ++ (p ++ t) = rest := (List.cons.injEq _ _ _ _).mp ht' |>.2
    exact ⟨s', t, by rw [List.append_assoc]; exact h2⟩

/-- Replacement is the identity on a list in which the pattern does not
occur, with any amount of fuel. -/
theorem replaceAllAux_eq_self {pat repl : List Char} :
    ∀ (fuel : ℕ) (l : List Char), ¬ (pat <:+: l) → replaceAllAux pat repl fuel l = l := by
  intro fuel
  induction fuel with
  | zero => intro l _; cases l <;> rfl
  | succ n ih =>
    intro l h
    cases l with
    | nil => rfl
    | cons c rest =>
      have hnp : ¬ (pat ≠ [] ∧ pat <+: (c :: rest)) := by
        rintro ⟨-, hp⟩
        exact h (isInfix_of_pfx hp)
      simp only [replaceAllAux, if_neg hnp]
      have hr : ¬ (pat <:+: rest) := fun hocc => h (isInfix_cons_of_isInfix c hocc)
      rw [ih rest hr]

/-- Replacement by a string at least as long as the pattern never
shortens the list. -/
theorem length_le_replaceAllAux {pat repl : List Char} (hlen : pat.length ≤ repl.length) :
    ∀ (fuel : ℕ) (l : List Char), l.length ≤ fuel →
      l.length ≤ (replaceAllAux pat repl fuel l).length := by
  intro fuel
  induction fuel with
  | zero =>
    intro l hl
    have : l = [] := List.length_eq_zero.mp (Nat.le_zero.mp hl)
    subst this
    simp [replaceAllAux]
  | succ n ih =>
    intro l hl
    cases l with
    | nil => simp [replaceAllAux]
    | cons c rest =>
      by_cases hc : pat ≠ [] ∧ pat <+: (c :: rest)
      · simp only [replaceAllAux, if_pos hc]
        have hppos : 0 < pat.length := List.length_pos.mpr hc.1
        have hple : pat.length ≤ (c :: rest).length := hc.2.length_le
        have hsplit : pat.length + ((c :: rest).drop pat.length).length = (c :: rest).length := by
          rw [List.length_drop]
          omega
        have hfuel : ((c :: rest).drop pat.length).length ≤ n := by
          simp only [List.length_cons] at hl hsplit
          omega
        have hrec := ih _ hfuel
        rw [List.length_append]
        omega
      · simp only [replaceAllAux, if_neg hc]
        have hfuel : rest.length ≤ n := by
          simp only [List.length_cons] at hl
          omega
        have hrec := ih rest hfuel
        simp only [List.length_cons]
        omega

/-- Replacement by a string strictly longer than the pattern strictly
lengthens any list in which the pattern occurs. -/
theorem length_lt_replaceAllAux {pat repl : List Char} (hne : pat ≠ [])
    (hlen : pat.length < repl.length) :
    ∀ (fuel : ℕ) (l : List Char), l.length ≤ fuel → pat <:+: l →
      l.length < (replaceAllAux pat repl fuel l).length := by
  intro fuel
  induction fuel with
  | zero =>
    intro l hl hocc
    have : l = [] := List.length_eq_zero.mp (Nat.le_zero.mp hl)
    subst this
    obtain ⟨s, t, ht⟩ := hocc
    simp only [List.append_eq_nil] at ht
    exact absurd ht.1.2 hne
  | succ n ih =>
    intro l hl hocc
    cases l with
    | nil =>
      obtain ⟨s, t, ht⟩ := hocc
      simp only [List.append_eq_nil] at ht
      exact absurd ht.1.2 hne
    | cons c rest =>
      by_cases hc : pat ≠ [] ∧ pat <+: (c :: rest)
      · simp only [replaceAllAux, if_pos hc]
        have hppos : 0 < pat.length := List.length_pos.mpr hc.1
        have hple : pat.length ≤ (c :: rest).length := hc.2.length_le
        have hsplit : pat.length + ((c :: rest).drop pat.length).length = (c :: rest).length := by
          rw [List.length_drop]
          omega
        have hfuel : ((c :: rest).drop pat.length).length ≤ n := by
          simp only [List.length_cons] at hl hsplit
          omega
        have hrec := length_le_replaceAllAux (Nat.le_of_lt hlen) n _ hfuel
        rw [List.length_append]
        omega
      · have hnp : ¬ pat <+: (c :: rest) := fun hp => hc ⟨hne, hp⟩
        have hocc' : pat <:+: rest := isInfix_tail_of_not_pfx hocc hnp
        simp only [replaceAllAux, if_neg hc]
        have hfuel : rest.length ≤ n := by
          simp only [List.length_cons] at hl
          omega
        have hrec := ih rest hfuel hocc'
        simp only [List.length_cons]
        omega

/-- Replacement in a string in which the pattern does not occur returns
the string unchanged. -/
theorem replaceAll_eq_of_not_occursIn {s pat repl : String} (h : ¬ occursIn pat s) :
    replaceAll s pat repl = s := by
  show String.mk (replaceAllAux pat.data repl.data s.data.length s.data) = s
  rw [replaceAllAux_eq_self _ _ h]

/-- Replacement by a strictly longer replacement changes any string in
which the pattern occurs. -/
theorem replaceAll_ne_of_occursIn {s pat repl : String} (h : occursIn pat s)
    (hne : pat.data ≠ []) (hlen : pat.data.length < repl.data.length) :
    replaceAll s pat repl ≠ s := by
  intro heq
  have hlt := length_lt_replaceAllAux hne hlen s.data.length s.data le_rfl h
  have hdata : (replaceAll s pat repl).data = s.data := congrArg String.data heq
  have : (replaceAllAux pat.data repl.data s.data.length s.data).length = s.data.length := by
    exact congrArg List.length hdata
  omega

/-- C1: in every loop iteration in which a breach occurs, dry-run true
means neither the Restart action nor the ProposeChange action is invoked
regardless of auto-apply; dry-run false with auto-apply true invokes
exactly the Restart action and not ProposeChange; dry-run false with
auto-apply false invokes exactly the ProposeChange action and not
Restart; and in every case at most one remediation action executes in
the iteration. -/
theorem c1_remediation_selection (cfg : AgentConfig) (o : LoopOracle) (p : ℚ) (tag : String)
    (hbreach : (get_average_cpu_for_deployment cfg.promUrl o.net).1 > cfg.cpuThreshold) :
    (cfg.dryRun = true →
      (main_loop_iteration cfg o p tag).countP isRestartEvent = 0 ∧
      (main_loop_iteration cfg o p tag).countP isProposeEvent = 0) ∧
    (cfg.dryRun = false → cfg.autoApply = true →
      (main_loop_iteration cfg o p tag).countP isRestartEvent = 1 ∧
      (main_loop_iteration cfg o p tag).countP isProposeEvent = 0) ∧
    (cfg.dryRun = false → cfg.autoApply = false →
      (main_loop_iteration cfg o p tag).countP isProposeEvent = 1 ∧
      (main_loop_iteration cfg o p tag).countP isRestartEvent = 0) ∧
    (main_loop_iteration cfg o p tag).countP isRestartEvent +
      (main_loop_iteration cfg o p tag).countP isProposeEvent ≤ 1 := by
  have hb : breachDecision (get_average_cpu_for_deployment cfg.promUrl o.net).1
      cfg.cpuThreshold = true := by
    simp [breachDecision, hbreach]
  cases hgh : create_github_pr_update_helm cfg.githubToken cfg.githubRepo o.gh tag <;>
    cases hd : cfg.dryRun <;> cases ha : cfg.autoApply <;>
      simp [main_loop_iteration, hb, hd, ha, hgh, List.countP_append, List.countP_cons,
        isRestartEvent, isProposeEvent]

/-- Witness for C1: a concrete breach iteration in dry-run mode invokes
no remediation action. -/
theorem c1_remediation_selection_witness :
    (main_loop_iteration cfgA oracleA 30 "agent-20260101010101").countP isRestartEvent = 0 ∧
    (main_loop_iteration cfgA oracleA 30 "agent-20260101010101").countP isProposeEvent = 0 :=
  (c1_remediation_selection cfgA oracleA 30 "agent-20260101010101"
    (by with_unfolding_all decide)).1 rfl

/-- C3: a breach is decided exactly when the sampled average is strictly
greater than the threshold; equality yields no breach; and a non-breach
iteration produces only the base sleep event, so it sends no
notification and takes no remediation action. -/
theorem c3_breach_strictness :
    (∀ avg thr : ℚ, breachDecision avg thr = true ↔ avg > thr) ∧
    (∀ avg thr : ℚ, avg = thr → breachDecision avg thr = false) ∧
    (∀ (cfg : AgentConfig) (o : LoopOracle) (p : ℚ) (tag : String),
      breachDecision (get_average_cpu_for_deployment cfg.promUrl o.net).1 cfg.cpuThreshold = false →
      main_loop_iteration cfg o p tag = [AgentEvent.sleep p]) := by
  refine ⟨?_, ?_, ?_⟩
  · intro avg thr
    simp [breachDecision]
  · intro avg thr h
    simp [breachDecision, h]
  · intro cfg o p tag h
    simp [main_loop_iteration, h]

/-- Witness for C3: at the spec scenario average 0.4 against threshold
0.5 there is no breach and the iteration is a bare base-interval sleep. -/
theorem c3_breach_strictness_witness :
    breachDecision (1/2) (1/2) = false ∧
    main_loop_iteration cfgA oracleLow 30 "agent-20260101010101" = [AgentEvent.sleep 30] := by
  constructor
  · exact c3_breach_strictness.2.1 (1/2) (1/2) rfl
  · exact c3_breach_strictness.2.2 cfgA oracleLow 30 "agent-20260101010101"
      (by with_unfolding_all decide)

/-- C8 counterexample: the claim says every breach iteration sleeps
exactly twice the base interval whatever became of the remediation.  In
the program, when the ProposeChange action raises through the unguarded
`g.get_repo` call (agent.py line 122), nothing catches the exception and
the process dies before `time.sleep(poll_interval * 2)` at line 190:
here a concrete breach iteration with that failure produces no sleep
event at all. -/
theorem c8_cooldown_counterexample :
    (get_average_cpu_for_deployment cfgPropose.promUrl oracleCrash.net).1 >
      cfgPropose.cpuThreshold ∧
    sleepEvents (main_loop_iteration cfgPropose oracleCrash 30 "agent-20260101010101") = [] ∧
    ¬ sleepEvents (main_loop_iteration cfgPropose oracleCrash 30 "agent-20260101010101") =
      [30 * 2] :=
  ⟨by with_unfolding_all decide, by with_unfolding_all decide, by with_unfolding_all decide⟩

/-- C8 amended: a breach iteration that completes sleeps exactly twice
the base poll interval regardless of the reported remediation outcome —
always under dry-run (skip) and under auto-apply (restart, success or
failure), and in the ProposeChange case whenever the action returns a
result; but when the ProposeChange action raises through its unguarded
GitHub calls the process dies before any sleep.  A non-breach iteration
sleeps the base interval. -/
theorem c8_cooldown_sleep (cfg : AgentConfig) (o : LoopOracle) (p : ℚ) (tag : String) :
    ((get_average_cpu_for_deployment cfg.promUrl o.net).1 > cfg.cpuThreshold →
      cfg.dryRun = true →
      sleepEvents (main_loop_iteration cfg o p tag) = [p * 2]) ∧
    ((get_average_cpu_for_deployment cfg.promUrl o.net).1 > cfg.cpuThreshold →
      cfg.dryRun = false → cfg.autoApply = true →
      sleepEvents (main_loop_iteration cfg o p tag) = [p * 2]) ∧
    ((get_average_cpu_for_deployment cfg.promUrl o.net).1 > cfg.cpuThreshold →
      cfg.dryRun = false → cfg.autoApply = false →
      (∀ res, create_github_pr_update_helm cfg.githubToken cfg.githubRepo o.gh tag =
          Except.ok res →
        sleepEvents (main_loop_iteration cfg o p tag) = [p * 2]) ∧
      (∀ e, create_github_pr_update_helm cfg.githubToken cfg.githubRepo o.gh tag =
          Except.error e →
        sleepEvents (main_loop_iteration cfg o p tag) = [])) ∧
    (¬ (get_average_cpu_for_deployment cfg.promUrl o.net).1 > cfg.cpuThreshold →
      sleepEvents (main_loop_iteration cfg o p tag) = [p]) := by
  refine ⟨?_, ?_, ?_, ?_⟩
  · intro h hd
    have hb : breachDecision (get_average_cpu_for_deployment cfg.promUrl o.net).1
        cfg.cpuThreshold = true := by
      simp [breachDecision, h]
    simp [main_loop_iteration, hb, hd, sleepEvents]
  · intro h hd ha
    have hb : breachDecision (get_average_cpu_for_deployment cfg.promUrl o.net).1
        cfg.cpuThreshold = true := by
      simp [breachDecision, h]
    simp [main_loop_iteration, hb, hd, ha, sleepEvents]
  · intro h hd ha
    have hb : breachDecision (get_average_cpu_for_deployment cfg.promUrl o.net).1
        cfg.cpuThreshold = true := by
      simp [breachDecision, h]
    constructor
    · intro res hres
      simp [main_loop_iteration, hb, hd, ha, hres, sleepEvents]
    · intro e herr
      simp [main_loop_iteration, hb, hd, ha, herr, sleepEvents]
  · intro h
    have hb : breachDecision (get_average_cpu_for_deployment cfg.promUrl o.net).1
        cfg.cpuThreshold = false := by
      simp [breachDecision, h]
    simp [main_loop_iteration, hb, sleepEvents]

/-- Witness for amended C8: with poll interval 30, a concrete dry-run
breach iteration sleeps 60, a completing ProposeChange breach iteration
sleeps 60, the crashing ProposeChange breach iteration sleeps not at
all, and a non-breach iteration sleeps 30. -/
theorem c8_cooldown_sleep_witness :
    sleepEvents (main_loop_iteration cfgA oracleA 30 "agent-20260101010101") = [30 * 2] ∧
    sleepEvents (main_loop_iteration cfgPropose oracleA 30 "agent-20260101010101") = [30 * 2] ∧
    sleepEvents (main_loop_iteration cfgPropose oracleCrash 30 "agent-20260101010101") = [] ∧
    sleepEvents (main_loop_iteration cfgA oracleLow 30 "agent-20260101010101") = [30] := by
  refine ⟨?_, ?_, ?_, ?_⟩
  · exact (c8_cooldown_sleep cfgA oracleA 30 "agent-20260101010101").1
      (by with_unfolding_all decide) rfl
  · exact ((c8_cooldown_sleep cfgPropose oracleA 30 "agent-20260101010101").2.2.1
      (by with_unfolding_all decide) rfl rfl).1
      ((true, "PR created: " ++ "http://github.example/pr/1"),
       [GhStep.createBranch, GhStep.readFile,
        GhStep.updateFile (updateHelmContent "tag: \"latest\"" "agent-20260101010101"),
        GhStep.createPull])
      (by with_unfolding_all decide)
  · exact ((c8_cooldown_sleep cfgPropose oracleCrash 30 "agent-20260101010101").2.2.1
      (by with_unfolding_all decide) rfl rfl).2 "boom" (by with_unfolding_all decide)
  · exact (c8_cooldown_sleep cfgA oracleLow 30 "agent-20260101010101").2.2.2
      (by with_unfolding_all decide)

/-- C2 counterexample: the claim asserts that an absent metric source
address is a fatal error raised before the loop starts and that no loop
iteration runs with the address absent.  In the code the `RuntimeError`
of `query_prometheus` is raised inside `get_average_cpu_for_deployment`'s
`try` block, which catches every exception; here a concrete iteration
with `promUrl = none` runs to completion, the sampler returning `(0, [])`
and the iteration ending in its normal base sleep. -/
theorem c2_startup_error_counterexample :
    pyTruthy none = false ∧
    get_average_cpu_for_deployment none
      (Except.ok [{ pod := "myapp-pod-1", value := some 1 }]) = (0, []) ∧
    main_loop_iteration { cfgA with promUrl := none } oracleA 30 "agent-20260101010101" =
      [AgentEvent.sleep 30] :=
  ⟨rfl, by with_unfolding_all decide, by with_unfolding_all decide⟩

/-- C2 amended: when the metric source address is not configured (unset
or empty), every call of `query_prometheus` raises the configuration
error, but `get_average_cpu_for_deployment` catches it and returns
average 0 with an empty instance list, so the loop starts and its
iterations run, treating the absent address as "no data"; no error is
raised at startup. -/
theorem c2_unconfigured_source (promUrl : Option String)
    (net : Except String (List PromResult)) (h : pyTruthy promUrl = false) :
    query_prometheus promUrl net = Except.error "PROMETHEUS_URL not configured" ∧
    get_average_cpu_for_deployment promUrl net = (0, []) := by
  constructor
  · simp [query_prometheus, h]
  · simp [get_average_cpu_for_deployment, query_prometheus, h]

/-- Witness for amended C2 at the unset address. -/
theorem c2_unconfigured_source_witness :
    query_prometheus none (Except.ok []) = Except.error "PROMETHEUS_URL not configured" ∧
    get_average_cpu_for_deployment none (Except.ok []) = (0, []) :=
  c2_unconfigured_source none (Except.ok []) rfl

/-- C4: the sampler returns average 0 and an empty instance list whenever
the query errors (including a failing float parse), or the matching
result set is empty, never propagating the failure; and for a non-empty
fully parsed result set it returns exactly the arithmetic mean
`sum / n` together with the raw results. -/
theorem c4_sampler_contract (promUrl : Option String)
    (net : Except String (List PromResult)) :
    (∀ e, net = Except.error e → get_average_cpu_for_deployment promUrl net = (0, [])) ∧
    (net = Except.ok [] → get_average_cpu_for_deployment promUrl net = (0, [])) ∧
    (∀ results, net = Except.ok results → parseValues results = none →
      get_average_cpu_for_deployment promUrl net = (0, [])) ∧
    (∀ results values, net = Except.ok results → pyTruthy promUrl = true →
      parseValues results = some values → values ≠ [] →
      (get_average_cpu_for_deployment promUrl net).1 = values.sum / (values.length : ℚ) ∧
      (get_average_cpu_for_deployment promUrl net).2 = results) := by
  refine ⟨?_, ?_, ?_, ?_⟩
  · intro e hnet
    subst hnet
    cases hp : pyTruthy promUrl <;>
      simp [get_average_cpu_for_deployment, query_prometheus, hp]
  · intro hnet
    subst hnet
    cases hp : pyTruthy promUrl <;>
      simp [get_average_cpu_for_deployment, query_prometheus, hp, parseValues]
  · intro results hnet hmap
    subst hnet
    cases hp : pyTruthy promUrl <;>
      simp [get_average_cpu_for_deployment, query_prometheus, hp, hmap]
  · intro results values hnet hp hmap hne
    subst hnet
    cases values with
    | nil => exact absurd rfl hne
    | cons a vl =>
      simp [get_average_cpu_for_deployment, query_prometheus, hp, hmap]

/-- Witness for C4: a query error yields `(0, [])`, and two pods at 1.0
and 0.5 CPU yield the exact mean of the two readings. -/
theorem c4_sampler_contract_witness :
    get_average_cpu_for_deployment (some "http://prom:9090") (Except.error "timeout") = (0, []) ∧
    (get_average_cpu_for_deployment (some "http://prom:9090")
        (Except.ok [{ pod := "p1", value := some 1 }, { pod := "p2", value := some (1/2) }])).1 =
      [(1 : ℚ), 1/2].sum / (([(1 : ℚ), 1/2].length : ℕ) : ℚ) := by
  constructor
  · exact (c4_sampler_contract (some "http://prom:9090") (Except.error "timeout")).1 "timeout" rfl
  · exact ((c4_sampler_contract (some "http://prom:9090")
      (Except.ok [{ pod := "p1", value := some 1 }, { pod := "p2", value := some (1/2) }])).2.2.2
      [{ pod := "p1", value := some 1 }, { pod := "p2", value := some (1/2) }]
      [(1 : ℚ), 1/2] rfl rfl (by with_unfolding_all decide) (by with_unfolding_all decide)).1

/-- C5 counterexample: the claim says every non-2xx/3xx response status
is logged.  The code logs only statuses at least 300, so a webhook
delivery answered with the (non-2xx/3xx) status 100 produces a trace
with the POST and no log line at all. -/
theorem c5_status_logging_counterexample :
    ¬ (200 ≤ 100 ∧ 100 < 400) ∧
    post_slack (some "http://hooks.example/w") (SlackOutcome.response 100 "Continue") "msg" =
      [SlackEvent.httpPost "http://hooks.example/w" "msg"] :=
  ⟨by omega, by with_unfolding_all decide⟩

/-- C5 amended: with no webhook configured the content is written to the
log and no network request is made; with a webhook configured exactly one
POST is issued (never retried), a network error is logged and never
raised, and a response status is logged as a failure exactly when it is
at least 300 — so all 4xx/5xx and also 3xx are logged, while statuses
below 300 (including the informational 1xx range) are not. -/
theorem c5_notification_delivery (webhook : Option String) (o : SlackOutcome) (text : String) :
    (pyTruthy webhook = false →
      post_slack webhook o text =
        [SlackEvent.printLine ("Slack webhook not configured. Message: " ++ text)]) ∧
    (pyTruthy webhook = true →
      (post_slack webhook o text).countP isHttpPostEvent = 1) ∧
    (∀ e, pyTruthy webhook = true → o = SlackOutcome.netError e →
      post_slack webhook o text =
        [SlackEvent.httpPost (webhook.getD "") text,
         SlackEvent.printLine ("Slack post exception: " ++ e)]) ∧
    (∀ status body, pyTruthy webhook = true → o = SlackOutcome.response status body →
      (post_slack webhook o text).countP isPrintEvent = (if 300 ≤ status then 1 else 0)) := by
  refine ⟨?_, ?_, ?_, ?_⟩
  · intro h
    simp [post_slack, h]
  · intro h
    cases o with
    | response status body =>
      by_cases hs : 300 ≤ status <;>
        simp [post_slack, h, hs, isHttpPostEvent, List.countP_cons]
    | netError e =>
      simp [post_slack, h, isHttpPostEvent, List.countP_cons]
  · intro e h ho
    subst ho
    simp [post_slack, h]
  · intro status body h ho
    subst ho
    by_cases hs : 300 ≤ status <;>
      simp [post_slack, h, hs, isPrintEvent, List.countP_cons]

/-- Witness for amended C5: an unset webhook logs the message, and a 500
response on a configured webhook is logged as a failure. -/
theorem c5_notification_delivery_witness :
    post_slack none (SlackOutcome.response 200 "") "hello" =
      [SlackEvent.printLine ("Slack webhook not configured. Message: " ++ "hello")] ∧
    (post_slack (some "http://hooks.example/w") (SlackOutcome.response 500 "err") "hello").countP
        isPrintEvent = 1 := by
  constructor
  · exact (c5_notification_delivery none (SlackOutcome.response 200 "") "hello").1 rfl
  · have h := (c5_notification_delivery (some "http://hooks.example/w")
      (SlackOutcome.response 500 "err") "hello").2.2.2 500 "err" rfl rfl
    simpa using h

/-- C6: the ProposeChange file-update step never fails: when the fixed
placeholder `tag: "latest"` does not occur in the original content, the
output is the original plus exactly one appended comment line recording
the generated tag; when the placeholder does occur, the substitution
changes the content and the output is the full leftmost replace-all of
the placeholder by the generated tag line (the fallback append is not
taken).  The hypothesis pins the tag to the generated shape `agent-`
followed by a 14-character timestamp, as produced by
`strftime("agent-%Y%m%d%H%M%S")`. -/
theorem c6_values_file_update (original newTag : String)
    (htag : ∃ s : String, newTag = "agent-" ++ s ∧ s.length = 14) :
    (¬ occursIn placeholderTag original →
      updateHelmContent original newTag = original ++ agentComment newTag) ∧
    (occursIn placeholderTag original →
      replaceAll original placeholderTag (tagLine newTag) ≠ original ∧
      updateHelmContent original newTag = replaceAll original placeholderTag (tagLine newTag)) := by
  obtain ⟨s, hs, hslen⟩ := htag
  have hslen' : s.data.length = 14 := hslen
  have hnlen : newTag.data.length = 20 := by
    rw [hs, data_append, List.length_append, hslen']
    decide
  have hlen : placeholderTag.data.length < (tagLine newTag).data.length := by
    have h1 : (tagLine newTag).data = ("tag: \"".data ++ newTag.data) ++ "\"".data := by
      show (("tag: \"" ++ newTag) ++ "\"").data = _
      rw [data_append, data_append]
    rw [h1, List.length_append, List.length_append, hnlen]
    decide
  constructor
  · intro h
    have hid := @replaceAll_eq_of_not_occursIn original placeholderTag (tagLine newTag) h
    show (if replaceAll original placeholderTag (tagLine newTag) = original
          then original ++ agentComment newTag
          else replaceAll original placeholderTag (tagLine newTag)) = original ++ agentComment newTag
    rw [if_pos hid]
  · intro h
    have hne : placeholderTag.data ≠ [] := by decide
    have hchanged := @replaceAll_ne_of_occursIn original placeholderTag (tagLine newTag) h hne hlen
    refine ⟨hchanged, ?_⟩
    show (if replaceAll original placeholderTag (tagLine newTag) = original
          then original ++ agentComment newTag
          else replaceAll original placeholderTag (tagLine newTag)) =
        replaceAll original placeholderTag (tagLine newTag)
    rw [if_neg hchanged]

/-- Witness for C6: a values file containing the placeholder is rewritten
by the substitution, and one without it gets the single appended comment
line. -/
theorem c6_values_file_update_witness :
    updateHelmContent "image:\n  tag: \"latest\"\n" "agent-20260101010101" =
      replaceAll "image:\n  tag: \"latest\"\n" placeholderTag (tagLine "agent-20260101010101") ∧
    updateHelmContent "replicas: 2\n" "agent-20260101010101" =
      "replicas: 2\n" ++ agentComment "agent-20260101010101" := by
  constructor
  · exact ((c6_values_file_update "image:\n  tag: \"latest\"\n" "agent-20260101010101"
      ⟨"20260101010101", by with_unfolding_all decide, by with_unfolding_all decide⟩).2
      (by with_unfolding_all decide)).2
  · exact (c6_values_file_update "replicas: 2\n" "agent-20260101010101"
      ⟨"20260101010101", by with_unfolding_all decide, by with_unfolding_all decide⟩).1
      (by with_unfolding_all decide)

/-- C7 counterexample: the claim says the first failing sub-step of the
ProposeChange action is reported as the action's `(False, message)`
result.  The branch-creation sub-step starts from the default-branch
tip, but `g.get_repo` and `repo.get_branch("main")` (agent.py lines
122-123) sit outside every `try` block: here the repository lookup fails
and the exception propagates out of the action uncaught instead of being
returned as a failure result. -/
theorem c7_uncaught_lookup_counterexample :
    create_github_pr_update_helm (some "tok") (some "org/repo") ghCrash
      "agent-20260101010101" = Except.error "boom" := by
  with_unfolding_all decide

/-- C7 amended: with GitHub configured, each of the four guarded
sub-steps (branch creation, file read, file update, PR creation) is an
independent recovered failure point: the first to fail yields the action
result `(false, that step's message)`, the following sub-steps are not
attempted, completed sub-steps stay completed (no rollback action
exists), and when all four succeed the action reports the created PR.
The unguarded repository lookup, default-branch lookup and content
decode are not recovered: their failure propagates uncaught out of the
action instead of being reported as its result. -/
theorem c7_proposechange_failure_points (token repoName : Option String)
    (gh : GithubOracle) (tag : String)
    (hcfg : pyTruthy token = true ∧ pyTruthy repoName = true) :
    (∀ e, gh.getRepo = Except.error e →
      create_github_pr_update_helm token repoName gh tag = Except.error e) ∧
    (∀ e, gh.getRepo = Except.ok () → gh.getBranch = Except.error e →
      create_github_pr_update_helm token repoName gh tag = Except.error e) ∧
    (∀ e sha, gh.getRepo = Except.ok () → gh.getBranch = Except.ok sha →
      gh.createBranch = Except.error e →
      create_github_pr_update_helm token repoName gh tag =
        Except.ok ((false, "Failed create branch: " ++ e), [GhStep.createBranch])) ∧
    (∀ e sha, gh.getRepo = Except.ok () → gh.getBranch = Except.ok sha →
      gh.createBranch = Except.ok () → gh.readFile = Except.error e →
      create_github_pr_update_helm token repoName gh tag =
        Except.ok ((false, "Failed read helm values: " ++ e),
          [GhStep.createBranch, GhStep.readFile])) ∧
    (∀ e sha, gh.getRepo = Except.ok () → gh.getBranch = Except.ok sha →
      gh.createBranch = Except.ok () → gh.readFile = Except.ok () →
      gh.decode = Except.error e →
      create_github_pr_update_helm token repoName gh tag = Except.error e) ∧
    (∀ e sha original, gh.getRepo = Except.ok () → gh.getBranch = Except.ok sha →
      gh.createBranch = Except.ok () → gh.readFile = Except.ok () →
      gh.decode = Except.ok original → gh.updateFile = Except.error e →
      create_github_pr_update_helm token repoName gh tag =
        Except.ok ((false, "Failed update file: " ++ e),
          [GhStep.createBranch, GhStep.readFile,
           GhStep.updateFile (updateHelmContent original tag)])) ∧
    (∀ e sha original, gh.getRepo = Except.ok () → gh.getBranch = Except.ok sha →
      gh.createBranch = Except.ok () → gh.readFile = Except.ok () →
      gh.decode = Except.ok original → gh.updateFile = Except.ok () →
      gh.createPull = Except.error e →
      create_github_pr_update_helm token repoName gh tag =
        Except.ok ((false, "Failed create PR: " ++ e),
          [GhStep.createBranch, GhStep.readFile,
           GhStep.updateFile (updateHelmContent original tag), GhStep.createPull])) ∧
    (∀ url sha original, gh.getRepo = Except.ok () → gh.getBranch = Except.ok sha →
      gh.createBranch = Except.ok () → gh.readFile = Except.ok () →
      gh.decode = Except.ok original → gh.updateFile = Except.ok () →
      gh.createPull = Except.ok url →
      create_github_pr_update_helm token repoName gh tag =
        Except.ok ((true, "PR created: " ++ url),
          [GhStep.createBranch, GhStep.readFile,
           GhStep.updateFile (updateHelmContent original tag), GhStep.createPull])) := by
  obtain ⟨ht, hr⟩ := hcfg
  refine ⟨?_, ?_, ?_, ?_, ?_, ?_, ?_, ?_⟩ <;> intros <;>
    simp_all [create_github_pr_update_helm]

/-- Witness for amended C7: with the lookups and first three guarded
sub-steps succeeding and the PR creation failing, the action reports the
PR failure and the branch, read, and update steps remain performed. -/
theorem c7_proposechange_failure_points_witness :
    create_github_pr_update_helm (some "tok") (some "org/repo")
      { getRepo := Except.ok (), getBranch := Except.ok "0a1b2c",
        createBranch := Except.ok (), readFile := Except.ok (),
        decode := Except.ok "replicas: 2\n",
        updateFile := Except.ok (), createPull := Except.error "boom" }
      "agent-20260101010101" =
      Except.ok ((false, "Failed create PR: " ++ "boom"),
        [GhStep.createBranch, GhStep.readFile,
         GhStep.updateFile (updateHelmContent "replicas: 2\n" "agent-20260101010101"),
         GhStep.createPull]) :=
  (c7_proposechange_failure_points (some "tok") (some "org/repo")
    { getRepo := Except.ok (), getBranch := Except.ok "0a1b2c",
      createBranch := Except.ok (), readFile := Except.ok (),
      decode := Except.ok "replicas: 2\n",
      updateFile := Except.ok (), createPull := Except.error "boom" }
    "agent-20260101010101" ⟨rfl, rfl⟩).2.2.2.2.2.2.1
    "boom" "0a1b2c" "replicas: 2\n" rfl rfl rfl rfl rfl rfl rfl

/-- C9: the remediation planner is a deterministic, stateless function of
the issue text: when the lowercased text contains the keyword "cpu" it
returns the fixed ordered four-line plan whose first line is the scale-up
recommendation, and otherwise the single-line generic investigate plan. -/
theorem c9_planner_keyword (issueText : String) :
    (occursIn "cpu" (pyLower issueText) →
      simple_llm_reasoning issueText =
        "Scale up replica count (increase replicas by 1 or 2)\nRestart pods of the deployment\nCheck for hot loops / heavy GC in app logs\nIf persists, create PR to bump resource limits or add HPA" ∧
      lineCount (simple_llm_reasoning issueText) = 4 ∧
      firstLine (simple_llm_reasoning issueText) =
        "Scale up replica count (increase replicas by 1 or 2)") ∧
    (¬ occursIn "cpu" (pyLower issueText) →
      simple_llm_reasoning issueText = "Investigate further, check logs and recent deployments" ∧
      lineCount (simple_llm_reasoning issueText) = 1) := by
  constructor
  · intro h
    have hres : simple_llm_reasoning issueText =
        "Scale up replica count (increase replicas by 1 or 2)\nRestart pods of the deployment\nCheck for hot loops / heavy GC in app logs\nIf persists, create PR to bump resource limits or add HPA" := by
      show String.intercalate "\n"
          (if occursIn "high cpu" (pyLower issueText) ∨ occursIn "cpu" (pyLower issueText) then
            ["Scale up replica count (increase replicas by 1 or 2)",
             "Restart pods of the deployment",
             "Check for hot loops / heavy GC in app logs",
             "If persists, create PR to bump resource limits or add HPA"]
          else
            ["Investigate further, check logs and recent deployments"]) = _
      rw [if_pos (Or.inr h)]
      with_unfolding_all rfl
    refine ⟨hres, ?_, ?_⟩ <;> rw [hres] <;> with_unfolding_all decide
  · intro h
    have hnh : ¬ occursIn "high cpu" (pyLower issueText) := by
      intro hh
      exact h ((show ("cpu".data <:+: "high cpu".data) by decide).trans hh)
    have hres : simple_llm_reasoning issueText =
        "Investigate further, check logs and recent deployments" := by
      show String.intercalate "\n"
          (if occursIn "high cpu" (pyLower issueText) ∨ occursIn "cpu" (pyLower issueText) then
            ["Scale up replica count (increase replicas by 1 or 2)",
             "Restart pods of the deployment",
             "Check for hot loops / heavy GC in app logs",
             "If persists, create PR to bump resource limits or add HPA"]
          else
            ["Investigate further, check logs and recent deployments"]) = _
      rw [if_neg (not_or.mpr ⟨hnh, h⟩)]
      with_unfolding_all rfl
    exact ⟨hres, by rw [hres]; with_unfolding_all decide⟩

/-- Witness for C9 at the loop's own issue text for the spec scenario of
a 0.6 average against threshold 0.5. -/
theorem c9_planner_keyword_witness :
    occursIn "cpu" (pyLower "High CPU detected for myapp in default: avg_cpu=0.6") ∧
    simple_llm_reasoning "High CPU detected for myapp in default: avg_cpu=0.6" =
      "Scale up replica count (increase replicas by 1 or 2)\nRestart pods of the deployment\nCheck for hot loops / heavy GC in app logs\nIf persists, create PR to bump resource limits or add HPA" ∧
    lineCount (simple_llm_reasoning "High CPU detected for myapp in default: avg_cpu=0.6") = 4 := by
  have h : occursIn "cpu" (pyLower "High CPU detected for myapp in default: avg_cpu=0.6") := by
    with_unfolding_all decide
  have hc := (c9_planner_keyword "High CPU detected for myapp in default: avg_cpu=0.6").1 h
  exact ⟨h, hc.1, hc.2.1⟩

/-- C10: the dry-run flag is true exactly when its configured value
(default "true") lowercases to the string "true"; any other non-empty
value such as "1" or "yes" parses as false, enabling mutating
remediation despite the safe-by-default intent; the auto-apply flag is
parsed the same way with default "false".  The final conjunct shows a
breach iteration under DRY_RUN="1" invoking the ProposeChange action. -/
theorem c10_flag_parsing :
    (∀ v : Option String, dryRunFlag v = true ↔ pyLower (v.getD "true") = "true") ∧
    dryRunFlag none = true ∧
    dryRunFlag (some "1") = false ∧
    dryRunFlag (some "yes") = false ∧
    (∀ v : Option String, autoApplyFlag v = true ↔ pyLower (v.getD "false") = "true") ∧
    autoApplyFlag none = false ∧
    (main_loop_iteration
        { cfgA with dryRun := dryRunFlag (some "1"), autoApply := autoApplyFlag none }
        oracleA 30 "agent-20260101010101").countP isProposeEvent = 1 := by
  refine ⟨?_, by decide, by decide, by decide, ?_, by decide, by with_unfolding_all decide⟩
  · intro v
    simp [dryRunFlag]
  · intro v
    simp [autoApplyFlag]

/-- Witness for C10: an explicitly uppercase "TRUE" still parses as
dry-run on. -/
theorem c10_flag_parsing_witness : dryRunFlag (some "TRUE") = true :=
  (c10_flag_parsing.1 (some "TRUE")).mpr (by with_unfolding_all decide)

end Agent

